import Mathlib

/-!
Shallow embedding of the feed-synchronization and schedule-coordination
engine of `src/app/page.tsx` (a single-page stock monitoring surface).

JavaScript runtime values reaching the normalizer are modelled by
`JSValue`; `JSON.parse` is an external platform collaborator and is
passed in as an abstract function `jp : String → Option JSValue`
(`none` models a parse exception).  Numbers are modelled by `Int`
(`NaN` is not modelled; no claim depends on it).  React `useState`
cells and `useRef` cells are gathered into an explicit `SessionState`,
and each event handler of the page becomes a pure state-transition
function taking the outcomes of its remote calls as arguments
(`Except` models a thrown promise rejection).
-/

/-- A JavaScript runtime value, as far as the page's data flow needs:
`vundefined` models `undefined`, `vobj` an object given by its own
enumerable string-keyed fields (keys unique, as produced by JSON). -/
inductive JSValue where
  | vundefined
  | vnull
  | vbool (b : Bool)
  | vnum (n : Int)
  | vstr (s : String)
  | varr (xs : List JSValue)
  | vobj (fields : List (String × JSValue))

/-- JavaScript falsiness (`!x`): `undefined`, `null`, `false`, `0` and
the empty string are falsy; every object and array is truthy. -/
def js_falsy : JSValue → Bool
  | .vundefined => true
  | .vnull => true
  | .vbool b => !b
  | .vnum n => n == 0
  | .vstr s => s == ""
  | .varr _ => false
  | .vobj _ => false

/-- `typeof x === "object"` — true for `null`, arrays and objects. -/
def typeofObject : JSValue → Bool
  | .vnull => true
  | .varr _ => true
  | .vobj _ => true
  | _ => false

/-- Optional-chained property access `x?.key`: a field lookup on an
object, `undefined` on everything else (matching `page.tsx`, which
only ever reads string-keyed properties via `?.`). -/
def getProp (v : JSValue) (key : String) : JSValue :=
  match v with
  | .vobj fields =>
    match fields.lookup key with
    | some x => x
    | none => .vundefined
  | _ => .vundefined

/-- The fragment returned by `parseAgentResponse`
(`Omit<AnalysisEntry, "id" | "source">` in the source). -/
structure ParsedEntry where
  currentPrice : String
  priceChange : String
  direction : String
  bulletPoints : List String
  timestamp : String
deriving DecidableEq, Repr

/-- Lines 192–194 of `page.tsx`: if `parsed?.result` is truthy and of
`typeof "object"`, unwrap one level into it. -/
def unwrapResult (p : JSValue) : JSValue :=
  let r := getProp p "result"
  if !(js_falsy r) && typeofObject r then r else p

/-- Lines 196–200 of `page.tsx`: field extraction with sentinels.
`now` is the value of `new Date().toISOString()` at extraction time. -/
def extractFields (now : String) (p : JSValue) : ParsedEntry :=
  { currentPrice :=
      match getProp p "current_price" with
      | .vstr s => s
      | _ => "N/A"
    priceChange :=
      match getProp p "price_change" with
      | .vstr s => s
      | _ => "N/A"
    direction :=
      match getProp p "direction" with
      | .vstr s => s
      | _ => "flat"
    bulletPoints :=
      match getProp p "bullet_points" with
      | .varr xs => xs.filterMap (fun b => match b with | .vstr s => some s | _ => none)
      | _ => []
    timestamp :=
      match getProp p "timestamp" with
      | .vstr s => s
      | _ => now }

/-- `parseAgentResponse` (lines 175–203 of `page.tsx`): the Response
Normalizer.  `none` models the `null` return ("Unparseable"). -/
def parseAgentResponse (jp : String → Option JSValue) (now : String)
    (data : JSValue) : Option ParsedEntry :=
  if js_falsy data then none
  else
    let parsed : Option JSValue :=
      match data with
      | .vstr s => jp s
      | d => if typeofObject d then some d else none
    match parsed with
    | none => none
    | some p => some (extractFields now (unwrapResult p))

/-- Provenance tag of a feed entry. -/
inductive EntrySource where
  | manual
  | scheduled
deriving DecidableEq, Repr

/-- `AnalysisEntry` of `page.tsx`: one normalized feed record. -/
structure AnalysisEntry where
  id : String
  currentPrice : String
  priceChange : String
  direction : String
  bulletPoints : List String
  timestamp : String
  source : EntrySource
deriving DecidableEq, Repr

/-- `{ id: generateId(), ...parsed, source }` — the entry built from a
normalizer fragment; `newId` is the `generateId()` output. -/
def mkEntry (newId : String) (src : EntrySource) (p : ParsedEntry) : AnalysisEntry :=
  { id := newId
    currentPrice := p.currentPrice
    priceChange := p.priceChange
    direction := p.direction
    bulletPoints := p.bulletPoints
    timestamp := p.timestamp
    source := src }

/-- The poll path's feed updater (lines 496–501 of `page.tsx`):
prepend unless some existing entry shares the
`(timestamp, currentPrice)` pair. -/
def insertScheduled (entry : AnalysisEntry) (prev : List AnalysisEntry) : List AnalysisEntry :=
  if prev.any (fun e => e.timestamp == entry.timestamp && e.currentPrice == entry.currentPrice)
  then prev
  else entry :: prev

/-- No two feed entries share their `(timestamp, currentPrice)` pair. -/
def NoDupPair (feed : List AnalysisEntry) : Prop :=
  List.Pairwise
    (fun a b => ¬(a.timestamp = b.timestamp ∧ a.currentPrice = b.currentPrice)) feed

/-- `ExecutionLog` of `lib/scheduler`: one remote schedule firing.
`response_output` is `.vundefined` when absent. -/
structure ExecutionLog where
  id : String
  success : Bool
  executed_at : String
  response_output : JSValue

/-- Result envelope of `getScheduleLogs`; `executions := none` models a
value failing the `Array.isArray` check. -/
structure GetLogsResult where
  success : Bool
  executions : Option (List ExecutionLog)
  total : Nat

/-- `Schedule` of `lib/scheduler`: the remote schedule descriptor. -/
structure Schedule where
  id : String
  is_active : Bool
  cron_expression : String
  timezone : String
  next_run_time : Option String
deriving DecidableEq, Repr

/-- Result envelope of `listSchedules`; `schedules := none` models a
value failing the `Array.isArray` check. -/
structure ListResult where
  success : Bool
  schedules : Option (List Schedule)

/-- Result envelope of `callAIAgent`: `response` is the raw response
object (`.vundefined` when absent), `error` its optional message. -/
structure AgentCallResult where
  success : Bool
  response : JSValue
  error : Option String

/-- The tracked schedule id (`SCHEDULE_ID` constant of `page.tsx`). -/
def SCHEDULE_ID : String := "699c6093399dfadeac38a2e8"

/-- The page's mutable session state: the `useState` cells and the
`lastLogIdRef` ref that the claims are about. -/
structure SessionState where
  feed : List AnalysisEntry
  lastLogId : Option String
  logs : List ExecutionLog
  logsTotal : Nat
  lastUpdated : Option String
  newUpdateBanner : Bool
  analysisError : Option String
  scheduleActive : Option Bool
  scheduleData : Option Schedule

/-- Initial state at mount (the `useState` initializers and the `null`
ref). -/
def initialState : SessionState :=
  { feed := []
    lastLogId := none
    logs := []
    logsTotal := 0
    lastUpdated := none
    newUpdateBanner := false
    analysisError := none
    scheduleActive := none
    scheduleData := none }

/-- `pollForNewResults` (lines 464–520 of `page.tsx`) as a pure state
transition.  `fetch` is the outcome of `getScheduleLogs` (`.error`
models a thrown rejection, caught by the handler's `catch`), `now`
the tick's wall-clock ISO string, `newId` the `generateId()` output,
`scrolled` whether `feedContainerRef.scrollTop > 100`. -/
def pollTick (jp : String → Option JSValue) (now newId : String) (scrolled : Bool)
    (fetch : Except Unit GetLogsResult) (s : SessionState) : SessionState :=
  match fetch with
  | .error _ => s
  | .ok result =>
    if !result.success then s
    else
      match result.executions with
      | none => s
      | some executions =>
        match executions with
        | [] => s
        | latestLog :: _ =>
          if latestLog.id = "" then s
          else if s.lastLogId = some latestLog.id then s
          else
            match s.lastLogId with
            | none => { s with lastLogId := some latestLog.id }
            | some _ =>
              let s1 := { s with lastLogId := some latestLog.id }
              let s2 :=
                if latestLog.success && !(js_falsy latestLog.response_output) then
                  match parseAgentResponse jp now latestLog.response_output with
                  | some parsed =>
                    let s2a :=
                      { s1 with
                        feed := insertScheduled (mkEntry newId EntrySource.scheduled parsed) s1.feed
                        lastUpdated := some now }
                    if scrolled then { s2a with newUpdateBanner := true } else s2a
                  | none => s1
                else s1
              { s2 with logs := executions, logsTotal := result.total }

/-- `runAnalysis` (lines 523–552 of `page.tsx`) as a pure state
transition.  `call` is the outcome of `callAIAgent`: `.error (some m)`
a thrown `Error` with message `m`, `.error none` a thrown non-`Error`
value. -/
def runAnalysis (jp : String → Option JSValue) (now newId : String)
    (call : Except (Option String) AgentCallResult) (s : SessionState) : SessionState :=
  let s0 := { s with analysisError := none }
  match call with
  | .error m => { s0 with analysisError := some (m.getD "Network error during analysis.") }
  | .ok result =>
    if result.success then
      match parseAgentResponse jp now (getProp result.response "result") with
      | some parsed =>
        { s0 with
          feed := mkEntry newId EntrySource.manual parsed :: s0.feed
          lastUpdated := some now }
      | none => { s0 with analysisError := some "Received unexpected response format from agent." }
    else
      { s0 with
        analysisError := some
          (match result.error with
           | some msg => if msg = "" then "Analysis failed. Please try again." else msg
           | none => "Analysis failed. Please try again.") }

/-- `loadScheduleStatus` (lines 435–448 of `page.tsx`): select the
tracked schedule by id, falling back to the first listed one; update
the cache only on a successful fetch with a schedule in hand. -/
def loadScheduleStatus (fetch : Except Unit ListResult) (s : SessionState) : SessionState :=
  match fetch with
  | .error _ => s
  | .ok result =>
    if result.success then
      match result.schedules with
      | some scheds =>
        match (scheds.find? (fun sc => sc.id == SCHEDULE_ID)).orElse (fun _ => scheds.head?) with
        | some sched => { s with scheduleData := some sched, scheduleActive := some sched.is_active }
        | none => s
      | none => s
    else s

/-- `loadLogs` (lines 451–461 of `page.tsx`). -/
def loadLogs (fetch : Except Unit GetLogsResult) (s : SessionState) : SessionState :=
  match fetch with
  | .error _ => s
  | .ok result =>
    if result.success then
      match result.executions with
      | some ex => { s with logs := ex, logsTotal := result.total }
      | none => s
    else s

/-- `handleToggleSchedule` (lines 555–572 of `page.tsx`): no-op without
a cached descriptor; issues the remote pause/resume (whose choice does
not touch local state), and only when that call returns without
throwing does it run the reconciling `loadScheduleStatus`; a thrown
toggle call is swallowed and skips the fetch.  No state cell is ever
flipped optimistically here. -/
def handleToggleSchedule (tcall : Except Unit Unit) (sfetch : Except Unit ListResult)
    (s : SessionState) : SessionState :=
  match s.scheduleData with
  | none => s
  | some _ =>
    match tcall with
    | .error _ => s
    | .ok _ => loadScheduleStatus sfetch s

/-- `getSampleData` (lines 87–129 of `page.tsx`).  `iso` abstracts
`(ms) => new Date(ms).toISOString()` and `now` is `Date.now()`; given
those, the sample set is a fixed function of the clock. -/
def getSampleData (iso : Int → String) (now : Int) : List AnalysisEntry :=
  [ { id := "sample-1"
      currentPrice := "$421.35"
      priceChange := "+$4.10 (+0.98%)"
      direction := "up"
      bulletPoints :=
        [ "MSFT shares gained nearly 1% in early trading, building on momentum from strong cloud revenue guidance.",
          "Azure growth rate accelerated to 33% YoY, exceeding analyst expectations of 30%.",
          "Institutional buying pressure remains robust with above-average volume." ]
      timestamp := iso (now - 2 * 60 * 1000)
      source := EntrySource.manual },
    { id := "sample-2"
      currentPrice := "$417.25"
      priceChange := "-$2.15 (-0.51%)"
      direction := "down"
      bulletPoints :=
        [ "MSFT dipped modestly amid broader tech sector rotation as investors moved toward defensive positions.",
          "Despite the pullback, the stock remains well above its 50-day moving average of $410." ]
      timestamp := iso (now - 12 * 60 * 1000)
      source := EntrySource.scheduled },
    { id := "sample-3"
      currentPrice := "$419.40"
      priceChange := "+$0.05 (+0.01%)"
      direction := "flat"
      bulletPoints :=
        [ "MSFT traded essentially flat as the market awaits key CPI data tomorrow.",
          "Options activity suggests traders are positioning for a breakout above $425 resistance.",
          "AI infrastructure capex guidance remains a key focus for upcoming earnings call." ]
      timestamp := iso (now - 22 * 60 * 1000)
      source := EntrySource.scheduled } ]

/-- Line 432 of `page.tsx`:
`showSampleData && feed.length === 0 ? getSampleData() : feed`. -/
def displayFeed (iso : Int → String) (now : Int) (showSample : Bool)
    (feed : List AnalysisEntry) : List AnalysisEntry :=
  if showSample && feed.length == 0 then getSampleData iso now else feed

/-- One externally triggered event of a session, carrying the outcomes
of the remote calls it performs. -/
inductive SessionEvent where
  | pollEv (now newId : String) (scrolled : Bool) (fetch : Except Unit GetLogsResult)
  | manualEv (now newId : String) (call : Except (Option String) AgentCallResult)
  | toggleEv (tcall : Except Unit Unit) (sfetch : Except Unit ListResult)
  | logsEv (fetch : Except Unit GetLogsResult)
  | statusEv (fetch : Except Unit ListResult)
  | scrollTopEv
  | dismissErrorEv

/-- The session step function: every handler of `page.tsx` that can
touch the session state (`scrollTopEv` is the banner click,
`dismissErrorEv` the error-banner dismiss). -/
def stepSession (jp : String → Option JSValue) (ev : SessionEvent)
    (s : SessionState) : SessionState :=
  match ev with
  | .pollEv now newId scrolled fetch => pollTick jp now newId scrolled fetch s
  | .manualEv now newId call => runAnalysis jp now newId call s
  | .toggleEv tcall sfetch => handleToggleSchedule tcall sfetch s
  | .logsEv fetch => loadLogs fetch s
  | .statusEv fetch => loadScheduleStatus fetch s
  | .scrollTopEv => { s with newUpdateBanner := false }
  | .dismissErrorEv => { s with analysisError := none }

/-- A concrete stand-in for `JSON.parse` that fails on every input
(used to instantiate counterexamples whose payloads are not strings,
or whose strings are not valid JSON). -/
def jp0 : String → Option JSValue := fun _ => none

/-- A concrete stand-in for `JSON.parse` that knows the input "42"
(decoding to the number 42) and fails on everything else. -/
def jp42 : String → Option JSValue :=
  fun s => if s = "42" then some (JSValue.vnum 42) else none

/-- Concrete agent payload carrying an explicit timestamp and price. -/
def payloadT1 : JSValue :=
  JSValue.vobj [("timestamp", JSValue.vstr "T"), ("current_price", JSValue.vstr "$1")]

/-- Concrete successful `callAIAgent` outcome whose
`response.result` is `payloadT1`. -/
def callT1 : Except (Option String) AgentCallResult :=
  Except.ok { success := true, response := JSValue.vobj [("result", payloadT1)], error := none }

/-- Session state after one manual trigger that inserted `payloadT1`. -/
def stManual1 : SessionState := runAnalysis jp0 "N1" "id1" callT1 initialState

/-- Session state after a second manual trigger with the identical
normalized `(timestamp, currentPrice)` pair. -/
def stManual2 : SessionState := runAnalysis jp0 "N2" "id2" callT1 stManual1

/-- A session state that has already seen execution id "e1". -/
def stSeen : SessionState := { initialState with lastLogId := some "e1" }

/-- A fresh successful execution whose payload is not valid JSON. -/
def logGarbled : ExecutionLog :=
  { id := "e2", success := true, executed_at := "2024-01-01T00:00:00Z",
    response_output := JSValue.vstr "garbage" }

/-- State after one poll tick that saw `logGarbled` from `stSeen`. -/
def tickGarbled : SessionState :=
  pollTick jp0 "NOW" "nid" false
    (Except.ok { success := true, executions := some [logGarbled], total := 5 }) stSeen

/-- An execution whose id the session has already seen. -/
def logSeen : ExecutionLog :=
  { id := "e1", success := true, executed_at := "2024-01-01T00:00:00Z",
    response_output := JSValue.vundefined }

/-- A session state that has seen "e1" and holds an empty log view. -/
def stC4 : SessionState := { initialState with lastLogId := some "e1" }

/-- State after a poll tick whose fetched page repeats the seen id. -/
def tickSeen : SessionState :=
  pollTick jp0 "NOW" "nid" false
    (Except.ok { success := true, executions := some [logSeen], total := 9 }) stC4

/-- A payload whose only top-level field wraps the interesting data in
a `result` object. -/
def resultWrapped : List (String × JSValue) :=
  [("result", JSValue.vobj [("current_price", JSValue.vstr "$1.00")])]

/-- A concrete schedule descriptor used to exercise the toggle path. -/
def schedFix : Schedule :=
  { id := SCHEDULE_ID, is_active := true, cron_expression := "*/10 * * * *",
    timezone := "America/New_York", next_run_time := none }

/-- A concrete schedule descriptor reporting the paused state. -/
def schedFixPaused : Schedule := { schedFix with is_active := false }

/-- A session state holding `schedFix` as its cached descriptor. -/
def stSched : SessionState :=
  { initialState with scheduleData := some schedFix, scheduleActive := some true }

/-- A session state holding one feed entry (used to exercise
feed-nonemptiness preservation). -/
def stOneEntry : SessionState :=
  { initialState with
    feed := [mkEntry "id9" EntrySource.manual
      { currentPrice := "$2", priceChange := "N/A", direction := "flat",
        bulletPoints := [], timestamp := "T9" }] }

/-- The normalizer fragment produced from `payloadT1`. -/
def pFix : ParsedEntry :=
  { currentPrice := "$1", priceChange := "N/A", direction := "flat",
    bulletPoints := [], timestamp := "T" }

/-- The successful agent-call envelope wrapped by `callT1`. -/
def rT1 : AgentCallResult :=
  { success := true, response := JSValue.vobj [("result", payloadT1)], error := none }

/-- A failing agent-call envelope with an explicit error message. -/
def rFail : AgentCallResult :=
  { success := false, response := JSValue.vundefined, error := some "agent exploded" }

/-- Helper: the poll path's feed updater either leaves the feed alone
or prepends exactly the new entry. -/
theorem insertScheduled_eq_or (e : AnalysisEntry) (prev : List AnalysisEntry) :
    insertScheduled e prev = prev ∨ insertScheduled e prev = e :: prev := by
  unfold insertScheduled
  split
  · exact Or.inl rfl
  · exact Or.inr rfl

/-- Helper: property access on any non-object value yields `undefined`. -/
theorem getProp_of_not_obj (v : JSValue) (h : ∀ fs, v ≠ JSValue.vobj fs) (k : String) :
    getProp v k = JSValue.vundefined := by
  cases v
  case vobj fields => exact absurd rfl (h fields)
  all_goals rfl

/-- Helper: a poll tick can only keep the feed or prepend one entry. -/
theorem pollTick_feed (jp : String → Option JSValue) (now newId : String) (scrolled : Bool)
    (fetch : Except Unit GetLogsResult) (s : SessionState) :
    (pollTick jp now newId scrolled fetch s).feed = s.feed
      ∨ ∃ e, (pollTick jp now newId scrolled fetch s).feed = e :: s.feed := by
  rcases fetch with u | r
  · exact Or.inl rfl
  obtain ⟨su, ex, tot⟩ := r
  cases su
  · exact Or.inl rfl
  rcases ex with _ | execs
  · exact Or.inl rfl
  rcases execs with _ | ⟨latest, rest⟩
  · exact Or.inl rfl
  by_cases h1 : latest.id = ""
  · left
    simp [pollTick, h1]
  by_cases h2 : s.lastLogId = some latest.id
  · left
    simp [pollTick, h1, h2]
  rcases h3 : s.lastLogId with _ | x
  · left
    simp [pollTick, h1, h2, h3]
  rw [h3] at h2
  have h2x : ¬x = latest.id := by simpa using h2
  cases hb : latest.success && !(js_falsy latest.response_output)
  · left
    simp [pollTick, h1, h2x, h3, hb]
  cases hp : parseAgentResponse jp now latest.response_output with
  | none =>
    left
    simp [pollTick, h1, h2x, h3, hb, hp]
  | some parsed =>
    rcases insertScheduled_eq_or (mkEntry newId EntrySource.scheduled parsed) s.feed with hi | hi
    · left
      cases scrolled <;> simp [pollTick, h1, h2x, h3, hb, hp, hi]
    · right
      refine ⟨mkEntry newId EntrySource.scheduled parsed, ?_⟩
      cases scrolled <;> simp [pollTick, h1, h2x, h3, hb, hp, hi]

/-- Helper: a manual trigger can only keep the feed or prepend one
entry. -/
theorem runAnalysis_feed (jp : String → Option JSValue) (now newId : String)
    (call : Except (Option String) AgentCallResult) (s : SessionState) :
    (runAnalysis jp now newId call s).feed = s.feed
      ∨ ∃ e, (runAnalysis jp now newId call s).feed = e :: s.feed := by
  rcases call with m | r
  · exact Or.inl rfl
  cases h : r.success
  · left
    simp [runAnalysis, h]
  cases hp : parseAgentResponse jp now (getProp r.response "result") with
  | none =>
    left
    simp [runAnalysis, h, hp]
  | some parsed =>
    right
    exact ⟨mkEntry newId EntrySource.manual parsed, by simp [runAnalysis, h, hp]⟩

/-- Helper: refreshing the schedule status cache never touches the
feed. -/
theorem loadScheduleStatus_feed (fetch : Except Unit ListResult) (s : SessionState) :
    (loadScheduleStatus fetch s).feed = s.feed := by
  rcases fetch with u | r
  · rfl
  cases h : r.success
  · simp [loadScheduleStatus, h]
  rcases hx : r.schedules with _ | scheds
  · simp [loadScheduleStatus, h, hx]
  rcases hf : (scheds.find? (fun sc => sc.id == SCHEDULE_ID)).orElse (fun _ => scheds.head?)
      with _ | sched
  · simp [loadScheduleStatus, h, hx, hf]
  · simp [loadScheduleStatus, h, hx, hf]

/-- Helper: refreshing the log view never touches the feed. -/
theorem loadLogs_feed (fetch : Except Unit GetLogsResult) (s : SessionState) :
    (loadLogs fetch s).feed = s.feed := by
  rcases fetch with u | r
  · rfl
  cases h : r.success
  · simp [loadLogs, h]
  rcases hx : r.executions with _ | ex
  · simp [loadLogs, h, hx]
  · simp [loadLogs, h, hx]

/-- Helper: the schedule toggle never touches the feed. -/
theorem handleToggleSchedule_feed (tcall : Except Unit Unit) (sfetch : Except Unit ListResult)
    (s : SessionState) :
    (handleToggleSchedule tcall sfetch s).feed = s.feed := by
  rcases hd : s.scheduleData with _ | sched
  · simp [handleToggleSchedule, hd]
  rcases tcall with u | _
  · simp [handleToggleSchedule, hd]
  · simp [handleToggleSchedule, hd, loadScheduleStatus_feed]

/-- Helper: every session event keeps the feed or prepends one entry;
in particular no event ever empties or rewrites the feed. -/
theorem stepSession_feed (jp : String → Option JSValue) (ev : SessionEvent) (s : SessionState) :
    (stepSession jp ev s).feed = s.feed ∨ ∃ e, (stepSession jp ev s).feed = e :: s.feed := by
  cases ev with
  | pollEv now newId scrolled fetch => exact pollTick_feed jp now newId scrolled fetch s
  | manualEv now newId call => exact runAnalysis_feed jp now newId call s
  | toggleEv tcall sfetch => exact Or.inl (handleToggleSchedule_feed tcall sfetch s)
  | logsEv fetch => exact Or.inl (loadLogs_feed fetch s)
  | statusEv fetch => exact Or.inl (loadScheduleStatus_feed fetch s)
  | scrollTopEv => exact Or.inl rfl
  | dismissErrorEv => exact Or.inl rfl

/-- C1 counterexample: the manual-trigger path performs no dedup
check.  Two manual runs whose payloads normalize to the identical
`(timestamp, currentPrice)` pair both land in the Feed, so the second
insertion of an already-present pair does change the Feed, and the
resulting reachable state holds two records with an equal pair. -/
theorem C1_counterexample :
    stManual1.feed
      = [mkEntry "id1" EntrySource.manual
          { currentPrice := "$1", priceChange := "N/A", direction := "flat",
            bulletPoints := [], timestamp := "T" }]
  ∧ stManual2.feed
      = [mkEntry "id2" EntrySource.manual
          { currentPrice := "$1", priceChange := "N/A", direction := "flat",
            bulletPoints := [], timestamp := "T" },
         mkEntry "id1" EntrySource.manual
          { currentPrice := "$1", priceChange := "N/A", direction := "flat",
            bulletPoints := [], timestamp := "T" }]
  ∧ stManual2.feed ≠ stManual1.feed
  ∧ (mkEntry "id2" EntrySource.manual
      { currentPrice := "$1", priceChange := "N/A", direction := "flat",
        bulletPoints := [], timestamp := "T" }).timestamp
      = (mkEntry "id1" EntrySource.manual
          { currentPrice := "$1", priceChange := "N/A", direction := "flat",
            bulletPoints := [], timestamp := "T" }).timestamp
  ∧ (mkEntry "id2" EntrySource.manual
      { currentPrice := "$1", priceChange := "N/A", direction := "flat",
        bulletPoints := [], timestamp := "T" }).currentPrice
      = (mkEntry "id1" EntrySource.manual
          { currentPrice := "$1", priceChange := "N/A", direction := "flat",
            bulletPoints := [], timestamp := "T" }).currentPrice :=
  ⟨rfl, rfl, by decide, rfl, rfl⟩

/-- C1 (amended): the dedup rule governs the scheduled-poll insertion
path only.  There, inserting a record whose `(timestamp, currentPrice)`
pair already occurs is a silent no-op, and the no-duplicate-pair
invariant is preserved; the manual-trigger path prepends its record
unconditionally, without consulting the Feed. -/
theorem C1_amended_scheduled_dedup (entry : AnalysisEntry) (prev : List AnalysisEntry)
    (jp : String → Option JSValue) (now newId : String) (r : AgentCallResult)
    (s : SessionState) (p : ParsedEntry) :
    ((∃ e ∈ prev, e.timestamp = entry.timestamp ∧ e.currentPrice = entry.currentPrice) →
      insertScheduled entry prev = prev)
  ∧ (NoDupPair prev → NoDupPair (insertScheduled entry prev))
  ∧ (r.success = true →
     parseAgentResponse jp now (getProp r.response "result") = some p →
      (runAnalysis jp now newId (Except.ok r) s).feed
        = mkEntry newId EntrySource.manual p :: s.feed) := by
  refine ⟨?_, ?_, ?_⟩
  · rintro ⟨e, he, ht, hc⟩
    unfold insertScheduled
    rw [if_pos]
    rw [List.any_eq_true]
    exact ⟨e, he, by simp [ht, hc]⟩
  · intro hnd
    unfold insertScheduled
    split
    · exact hnd
    case isFalse h =>
      unfold NoDupPair
      rw [List.pairwise_cons]
      refine ⟨?_, hnd⟩
      intro b hb hcon
      apply h
      rw [List.any_eq_true]
      exact ⟨b, hb, by simp [hcon.1, hcon.2]⟩
  · intro hs hp
    simp [runAnalysis, hs, hp]

/-- C3 counterexample: a structured payload whose `direction` field
holds the unrecognized string "sideways" normalizes to a record whose
direction is "sideways", not "flat" — the normalizer keeps any string
verbatim. -/
theorem C3_counterexample :
    parseAgentResponse jp0 "NOW" (JSValue.vobj [("direction", JSValue.vstr "sideways")])
      = some { currentPrice := "N/A", priceChange := "N/A", direction := "sideways",
               bulletPoints := [], timestamp := "NOW" }
  ∧ "sideways" ≠ "flat" :=
  ⟨rfl, by decide⟩

/-- C3 (amended): normalization copies any string-typed `direction`
value verbatim into the record, unrecognized values included; the
default "flat" is used exactly when the (post-unwrap) field is absent
or not a string — an `undefined`, `null`, boolean, number, array or
object direction all fall back to "flat". -/
theorem C3_amended_direction_verbatim (jp : String → Option JSValue) (now d : String)
    (fs : List (String × JSValue)) :
    (getProp (unwrapResult (JSValue.vobj fs)) "direction" = JSValue.vstr d →
      ∃ e, parseAgentResponse jp now (JSValue.vobj fs) = some e ∧ e.direction = d)
  ∧ ((∀ x, getProp (unwrapResult (JSValue.vobj fs)) "direction" ≠ JSValue.vstr x) →
      ∃ e, parseAgentResponse jp now (JSValue.vobj fs) = some e ∧ e.direction = "flat") := by
  constructor
  · intro h
    exact ⟨extractFields now (unwrapResult (JSValue.vobj fs)), rfl, by simp [extractFields, h]⟩
  · intro h
    refine ⟨extractFields now (unwrapResult (JSValue.vobj fs)), rfl, ?_⟩
    cases hg : getProp (unwrapResult (JSValue.vobj fs)) "direction" with
    | vstr x => exact absurd hg (h x)
    | vundefined => simp [extractFields, hg]
    | vnull => simp [extractFields, hg]
    | vbool b => simp [extractFields, hg]
    | vnum n => simp [extractFields, hg]
    | varr xs => simp [extractFields, hg]
    | vobj fl => simp [extractFields, hg]

/-- C6 counterexample: the payload `{result: {current_price: "$1.00"}}`
is a structured object containing none of the five optional fields,
yet normalization returns `currentPrice = "$1.00"`, not the sentinel —
the one-level `result` unwrap reads the nested object's fields. -/
theorem C6_counterexample :
    parseAgentResponse jp0 "NOW" (JSValue.vobj resultWrapped)
      = some { currentPrice := "$1.00", priceChange := "N/A", direction := "flat",
               bulletPoints := [], timestamp := "NOW" }
  ∧ resultWrapped.lookup "current_price" = none
  ∧ resultWrapped.lookup "price_change" = none
  ∧ resultWrapped.lookup "direction" = none
  ∧ resultWrapped.lookup "bullet_points" = none
  ∧ resultWrapped.lookup "timestamp" = none
  ∧ "$1.00" ≠ "N/A" :=
  ⟨rfl, rfl, rfl, rfl, rfl, rfl, by decide⟩

/-- C6 (amended): normalization of a structured object never reports
Unparseable; and whenever, after the one-level `result` unwrap the
Normalizer performs, none of the optional fields is present, the
result carries exactly the sentinel values: currentPrice = "N/A",
priceChange = "N/A", direction = "flat", empty bulletPoints, and
timestamp = the normalization-time now. -/
theorem C6_amended_defaults (jp : String → Option JSValue) (now : String)
    (fs : List (String × JSValue)) :
    (∃ e, parseAgentResponse jp now (JSValue.vobj fs) = some e)
  ∧ (getProp (unwrapResult (JSValue.vobj fs)) "current_price" = JSValue.vundefined →
     getProp (unwrapResult (JSValue.vobj fs)) "price_change" = JSValue.vundefined →
     getProp (unwrapResult (JSValue.vobj fs)) "direction" = JSValue.vundefined →
     getProp (unwrapResult (JSValue.vobj fs)) "bullet_points" = JSValue.vundefined →
     getProp (unwrapResult (JSValue.vobj fs)) "timestamp" = JSValue.vundefined →
     parseAgentResponse jp now (JSValue.vobj fs)
       = some { currentPrice := "N/A", priceChange := "N/A", direction := "flat",
                bulletPoints := [], timestamp := now }) := by
  constructor
  · exact ⟨extractFields now (unwrapResult (JSValue.vobj fs)), rfl⟩
  · intro h1 h2 h3 h4 h5
    show some (extractFields now (unwrapResult (JSValue.vobj fs))) = _
    simp [extractFields, h1, h2, h3, h4, h5]

/-- C10: a string payload that decodes as valid JSON to any non-object
value, and any array payload, is not Unparseable: normalization
returns the all-defaults record, as if every optional field were
absent. -/
theorem C10_non_object_defaults (jp : String → Option JSValue) (now str : String)
    (v : JSValue) (xs : List JSValue) :
    (str ≠ "" → jp str = some v → (∀ fs, v ≠ JSValue.vobj fs) →
      parseAgentResponse jp now (JSValue.vstr str)
        = some { currentPrice := "N/A", priceChange := "N/A", direction := "flat",
                 bulletPoints := [], timestamp := now })
  ∧ parseAgentResponse jp now (JSValue.varr xs)
      = some { currentPrice := "N/A", priceChange := "N/A", direction := "flat",
               bulletPoints := [], timestamp := now } := by
  constructor
  · intro hstr hjp hv
    have hg : ∀ k, getProp v k = JSValue.vundefined := getProp_of_not_obj v hv
    simp [parseAgentResponse, js_falsy, hstr, hjp, unwrapResult, hg, extractFields]
  · rfl

/-- C2 counterexample: from a state that has seen "e1", a tick whose
latest entry "e2" carries a payload the Normalizer reports Unparseable
does NOT leave `lastSeenExecutionId` unchanged — it advances to "e2"
(so the next tick will not retry that entry), while no Feed insertion
occurs. -/
theorem C2_counterexample :
    tickGarbled.lastLogId = some "e2"
  ∧ stSeen.lastLogId = some "e1"
  ∧ parseAgentResponse jp0 "NOW" logGarbled.response_output = none
  ∧ tickGarbled.lastLogId ≠ stSeen.lastLogId
  ∧ tickGarbled.feed = stSeen.feed :=
  ⟨rfl, rfl, rfl, by decide, rfl⟩

/-- C2 (amended): a poll tick that encounters a fetch error — a thrown
rejection, an unsuccessful result envelope, or a malformed executions
page — is abandoned with the whole session state (in particular
`lastSeenExecutionId`) unchanged, so the next tick retries.  But when
the fetch succeeds and only the Normalizer reports the new latest
entry's payload Unparseable, `lastSeenExecutionId` IS advanced to that
entry's id (the entry is not retried); no Feed record is inserted and
the log view is still refreshed. -/
theorem C2_amended_tick_failure (jp : String → Option JSValue) (now newId : String)
    (scrolled : Bool) (s : SessionState) (u : Unit) (r : GetLogsResult)
    (latest : ExecutionLog) (rest : List ExecutionLog) (total : Nat) (old : String) :
    (pollTick jp now newId scrolled (Except.error u) s = s)
  ∧ (r.success = false → pollTick jp now newId scrolled (Except.ok r) s = s)
  ∧ (r.executions = none → pollTick jp now newId scrolled (Except.ok r) s = s)
  ∧ (s.lastLogId = some old → old ≠ latest.id → latest.id ≠ "" →
     parseAgentResponse jp now latest.response_output = none →
     pollTick jp now newId scrolled
         (Except.ok { success := true, executions := some (latest :: rest), total := total }) s
       = { s with lastLogId := some latest.id, logs := latest :: rest, logsTotal := total }) := by
  refine ⟨rfl, ?_, ?_, ?_⟩
  · intro h
    obtain ⟨su, ex, tot⟩ := r
    simp only at h
    subst h
    rfl
  · intro h
    obtain ⟨su, ex, tot⟩ := r
    simp only at h
    subst h
    cases su <;> rfl
  · intro h1 h2 h3 h4
    cases hb : latest.success && !(js_falsy latest.response_output)
    · simp [pollTick, h1, h2, h3, hb]
    · simp [pollTick, h1, h2, h3, h4, hb]

/-- C4 counterexample: a tick whose successfully fetched non-empty
page repeats the already-seen latest id leaves the cached log view and
its total untouched (here: still empty with total 0, though the fetch
reported one entry and total 9) — the refresh is not unconditional. -/
theorem C4_counterexample :
    tickSeen = stC4
  ∧ tickSeen.logs = []
  ∧ tickSeen.logsTotal = 0
  ∧ ([] : List ExecutionLog) ≠ [logSeen]
  ∧ (0 : Nat) ≠ 9 :=
  ⟨rfl, rfl, rfl, by simp, by decide⟩

/-- C4 (amended): the cached log view and total are replaced with the
fetched page exactly on ticks that pass the novelty checks (the fetch
succeeded, the page is non-empty, the latest entry has a non-empty id
differing from the known `lastSeenExecutionId`); on those ticks the
refresh happens regardless of whether an analysis record was produced.
Ticks whose latest id equals the last-seen id, and first ticks since
mount, leave the log view untouched. -/
theorem C4_amended_log_refresh (jp : String → Option JSValue) (now newId : String)
    (scrolled : Bool) (s : SessionState) (latest : ExecutionLog)
    (rest : List ExecutionLog) (total : Nat) (old : String) :
    (s.lastLogId = some old → old ≠ latest.id → latest.id ≠ "" →
      (pollTick jp now newId scrolled
          (Except.ok { success := true, executions := some (latest :: rest), total := total }) s).logs
        = latest :: rest
      ∧ (pollTick jp now newId scrolled
          (Except.ok { success := true, executions := some (latest :: rest), total := total }) s).logsTotal
        = total)
  ∧ (s.lastLogId = some latest.id →
      pollTick jp now newId scrolled
          (Except.ok { success := true, executions := some (latest :: rest), total := total }) s
        = s)
  ∧ (s.lastLogId = none → latest.id ≠ "" →
      (pollTick jp now newId scrolled
          (Except.ok { success := true, executions := some (latest :: rest), total := total }) s).logs
        = s.logs
      ∧ (pollTick jp now newId scrolled
          (Except.ok { success := true, executions := some (latest :: rest), total := total }) s).logsTotal
        = s.logsTotal) := by
  refine ⟨?_, ?_, ?_⟩
  · intro h1 h2 h3
    constructor <;> simp [pollTick, h1, h2, h3]
  · intro h
    by_cases hid : latest.id = ""
    · simp [pollTick, hid]
    · simp [pollTick, hid, h]
  · intro h0 hid
    have hstate : pollTick jp now newId scrolled
        (Except.ok { success := true, executions := some (latest :: rest), total := total }) s
        = { s with lastLogId := some latest.id } := by
      simp [pollTick, h0, hid]
    rw [hstate]
    exact ⟨rfl, rfl⟩

/-- C8: on a first tick (no last-seen id) whose successful fetch
returns a non-empty page whose first entry has a non-empty id, the
tick only records that id — the resulting state differs from the
pre-tick state in `lastSeenExecutionId` alone, so in particular
nothing is inserted into the Feed, whatever the entries' success flags
or payloads. -/
theorem C8_first_tick_suppression (jp : String → Option JSValue) (now newId : String)
    (scrolled : Bool) (s : SessionState) (latest : ExecutionLog)
    (rest : List ExecutionLog) (total : Nat)
    (h0 : s.lastLogId = none) (hid : latest.id ≠ "") :
    pollTick jp now newId scrolled
        (Except.ok { success := true, executions := some (latest :: rest), total := total }) s
      = { s with lastLogId := some latest.id } := by
  simp [pollTick, h0, hid]

/-- C5: toggle reconciliation.  A toggle run with no cached descriptor,
or whose remote pause/resume call throws, leaves the whole state at
its last confirmed value; when the remote call returns, the final
state is exactly the one produced by the reconciling status fetch.
And that fetch either leaves the cached `isActive` at its last
confirmed value (on any failure, or when no schedule is reported) or
sets it to precisely the `is_active` the fetch reports for the
selected schedule — the toggle itself never flips the cached value. -/
theorem C5_toggle_reconciliation (tcall : Except Unit Unit) (sfetch : Except Unit ListResult)
    (s : SessionState) :
    (s.scheduleData = none → handleToggleSchedule tcall sfetch s = s)
  ∧ (∀ u, tcall = Except.error u → handleToggleSchedule tcall sfetch s = s)
  ∧ (s.scheduleData ≠ none → tcall = Except.ok () →
      handleToggleSchedule tcall sfetch s = loadScheduleStatus sfetch s)
  ∧ ((loadScheduleStatus sfetch s).scheduleActive = s.scheduleActive
     ∨ ∃ r scheds sched, sfetch = Except.ok r ∧ r.success = true ∧ r.schedules = some scheds
        ∧ ((scheds.find? (fun sc => sc.id == SCHEDULE_ID)).orElse (fun _ => scheds.head?))
            = some sched
        ∧ (loadScheduleStatus sfetch s).scheduleActive = some sched.is_active) := by
  refine ⟨?_, ?_, ?_, ?_⟩
  · intro h
    simp [handleToggleSchedule, h]
  · intro u hu
    subst hu
    rcases h : s.scheduleData with _ | sched <;> simp [handleToggleSchedule, h]
  · intro hne hok
    subst hok
    rcases h : s.scheduleData with _ | sched
    · exact absurd h hne
    · simp [handleToggleSchedule, h]
  · rcases sfetch with u | r
    · exact Or.inl rfl
    cases hs : r.success
    · exact Or.inl (by simp [loadScheduleStatus, hs])
    rcases hx : r.schedules with _ | scheds
    · exact Or.inl (by simp [loadScheduleStatus, hs, hx])
    rcases hf : (scheds.find? (fun sc => sc.id == SCHEDULE_ID)).orElse (fun _ => scheds.head?)
        with _ | sched
    · exact Or.inl (by simp [loadScheduleStatus, hs, hx, hf])
    · exact Or.inr ⟨r, scheds, sched, rfl, hs, hx, hf, by simp [loadScheduleStatus, hs, hx, hf]⟩

/-- C7: on every failing manual-trigger run — thrown request error,
`success: false` envelope, or Unparseable payload — the Feed is left
unchanged and the run completes with exactly one error message set
(the state differs from the pre-run state only in `analysisError`);
the model performs a single agent call per run, so no retry occurs. -/
theorem C7_manual_trigger_errors (jp : String → Option JSValue) (now newId : String)
    (m : Option String) (r : AgentCallResult) (s : SessionState) :
    ((runAnalysis jp now newId (Except.error m) s).feed = s.feed
      ∧ ∃ msg, runAnalysis jp now newId (Except.error m) s
          = { s with analysisError := some msg })
  ∧ (r.success = false →
      (runAnalysis jp now newId (Except.ok r) s).feed = s.feed
      ∧ ∃ msg, runAnalysis jp now newId (Except.ok r) s
          = { s with analysisError := some msg })
  ∧ (r.success = true →
     parseAgentResponse jp now (getProp r.response "result") = none →
      (runAnalysis jp now newId (Except.ok r) s).feed = s.feed
      ∧ runAnalysis jp now newId (Except.ok r) s
          = { s with analysisError := some "Received unexpected response format from agent." }) := by
  refine ⟨⟨rfl, ⟨m.getD "Network error during analysis.", rfl⟩⟩, ?_, ?_⟩
  · intro h
    rcases herr : r.error with _ | msg
    · have he : runAnalysis jp now newId (Except.ok r) s
          = { s with analysisError := some "Analysis failed. Please try again." } := by
        simp [runAnalysis, h, herr]
      exact ⟨by rw [he], ⟨_, he⟩⟩
    · by_cases hm : msg = ""
      · have he : runAnalysis jp now newId (Except.ok r) s
            = { s with analysisError := some "Analysis failed. Please try again." } := by
          simp [runAnalysis, h, herr, hm]
        exact ⟨by rw [he], ⟨_, he⟩⟩
      · have he : runAnalysis jp now newId (Except.ok r) s
            = { s with analysisError := some msg } := by
          simp [runAnalysis, h, herr, hm]
        exact ⟨by rw [he], ⟨_, he⟩⟩
  · intro h hp
    have he : runAnalysis jp now newId (Except.ok r) s
        = { s with analysisError := some "Received unexpected response format from agent." } := by
      simp [runAnalysis, h, hp]
    exact ⟨by rw [he], he⟩

/-- C9: when the Feed is empty and the sample flag is set, the display
shows the fixed illustrative set `getSampleData` (deterministic in the
clock); whenever the Feed is non-empty the display equals the Feed;
and no session event ever shrinks the Feed — every event keeps it or
prepends one record, so a non-empty Feed stays non-empty and the
illustrative set, never written into the Feed, stays gone for the rest
of the session after the first real insertion. -/
theorem C9_sample_substitution (iso : Int → String) (now : Int) (flag : Bool)
    (feed : List AnalysisEntry) (jp : String → Option JSValue) (ev : SessionEvent)
    (s : SessionState) :
    (flag = true → feed = [] → displayFeed iso now flag feed = getSampleData iso now)
  ∧ (feed ≠ [] → displayFeed iso now flag feed = feed)
  ∧ ((stepSession jp ev s).feed = s.feed ∨ ∃ e, (stepSession jp ev s).feed = e :: s.feed)
  ∧ (s.feed ≠ [] → (stepSession jp ev s).feed ≠ []) := by
  refine ⟨?_, ?_, stepSession_feed jp ev s, ?_⟩
  · intro h1 h2
    subst h1
    subst h2
    rfl
  · intro h
    have : (feed.length == 0) = false := by
      simp [List.length_eq_zero, h]
    simp [displayFeed, this]
  · intro h
    rcases stepSession_feed jp ev s with h1 | ⟨e, h1⟩ <;> rw [h1] <;> simp [h]

/-- C1 witness: the scheduled insertion rule drops a concrete
duplicate pair, and a concrete successful manual run prepends its
record unconditionally. -/
theorem C1_witness :
    insertScheduled (mkEntry "idX" EntrySource.scheduled pFix)
        [mkEntry "id1" EntrySource.manual pFix]
      = [mkEntry "id1" EntrySource.manual pFix]
  ∧ (runAnalysis jp0 "N1" "id1" (Except.ok rT1) initialState).feed
      = mkEntry "id1" EntrySource.manual pFix :: initialState.feed := by
  have h := C1_amended_scheduled_dedup (mkEntry "idX" EntrySource.scheduled pFix)
      [mkEntry "id1" EntrySource.manual pFix] jp0 "N1" "id1" rT1 initialState pFix
  refine ⟨h.1 ⟨mkEntry "id1" EntrySource.manual pFix, ?_, rfl, rfl⟩, h.2.2 rfl rfl⟩
  simp

/-- C2 witness: a concrete abandoned tick (thrown fetch) and a
concrete Unparseable-payload tick with the advanced last-seen id. -/
theorem C2_witness :
    pollTick jp0 "NOW" "nid" false
        (Except.ok { success := true, executions := some [logGarbled], total := 5 }) stSeen
      = { stSeen with lastLogId := some "e2", logs := [logGarbled], logsTotal := 5 }
  ∧ pollTick jp0 "NOW" "nid" false (Except.error ()) stSeen = stSeen := by
  have h := C2_amended_tick_failure jp0 "NOW" "nid" false stSeen ()
      { success := false, executions := none, total := 0 } logGarbled [] 5 "e1"
  exact ⟨h.2.2.2 rfl (by decide) (by decide) rfl, h.1⟩

/-- C3 witness: the unrecognized direction string "sideways" survives
normalization verbatim on a concrete payload, while a present but
non-string direction (the number 42) falls back to "flat". -/
theorem C3_witness :
    (∃ e, parseAgentResponse jp0 "NOW" (JSValue.vobj [("direction", JSValue.vstr "sideways")])
        = some e ∧ e.direction = "sideways")
  ∧ (∃ e, parseAgentResponse jp0 "NOW" (JSValue.vobj [("direction", JSValue.vnum 42)])
        = some e ∧ e.direction = "flat") := by
  constructor
  · exact (C3_amended_direction_verbatim jp0 "NOW" "sideways"
      [("direction", JSValue.vstr "sideways")]).1 rfl
  · refine (C3_amended_direction_verbatim jp0 "NOW" "sideways"
      [("direction", JSValue.vnum 42)]).2 ?_
    intro x hcon
    exact JSValue.noConfusion hcon

/-- C4 witness: a concrete novelty-passing tick replaces the log view
and its total with the fetched page. -/
theorem C4_witness :
    (pollTick jp0 "NOW" "nid" false
        (Except.ok { success := true, executions := some [logGarbled], total := 7 }) stSeen).logs
      = [logGarbled]
  ∧ (pollTick jp0 "NOW" "nid" false
        (Except.ok { success := true, executions := some [logGarbled], total := 7 }) stSeen).logsTotal
      = 7 :=
  (C4_amended_log_refresh jp0 "NOW" "nid" false stSeen logGarbled [] 7 "e1").1
    rfl (by decide) (by decide)

/-- C5 witness: a concrete toggle run whose remote call returns ends
in exactly the state the reconciling fetch produces. -/
theorem C5_witness :
    handleToggleSchedule (Except.ok ())
        (Except.ok { success := true, schedules := some [schedFixPaused] }) stSched
      = loadScheduleStatus
          (Except.ok { success := true, schedules := some [schedFixPaused] }) stSched :=
  (C5_toggle_reconciliation (Except.ok ())
      (Except.ok { success := true, schedules := some [schedFixPaused] }) stSched).2.2.1
    (by decide) rfl

/-- C6 witness: a concrete object with no optional field (and no
result wrapper) normalizes to the all-defaults record. -/
theorem C6_witness :
    parseAgentResponse jp0 "NOW" (JSValue.vobj [("foo", JSValue.vstr "bar")])
      = some { currentPrice := "N/A", priceChange := "N/A", direction := "flat",
               bulletPoints := [], timestamp := "NOW" } :=
  (C6_amended_defaults jp0 "NOW" [("foo", JSValue.vstr "bar")]).2 rfl rfl rfl rfl rfl

/-- C7 witness: a concrete thrown run and a concrete `success: false`
run each leave the feed unchanged and set a single error message. -/
theorem C7_witness :
    (runAnalysis jp0 "NOW" "nid" (Except.error (some "boom")) initialState).feed
      = initialState.feed
  ∧ ∃ msg, runAnalysis jp0 "NOW" "nid" (Except.ok rFail) initialState
      = { initialState with analysisError := some msg } := by
  have h := C7_manual_trigger_errors jp0 "NOW" "nid" (some "boom") rFail initialState
  exact ⟨h.1.1, (h.2.1 rfl).2⟩

/-- C8 witness: a concrete first tick records the latest id and
changes nothing else. -/
theorem C8_witness :
    pollTick jp0 "NOW" "nid" false
        (Except.ok { success := true, executions := some [logGarbled], total := 3 }) initialState
      = { initialState with lastLogId := some "e2" } :=
  C8_first_tick_suppression jp0 "NOW" "nid" false initialState logGarbled [] 3 rfl (by decide)

/-- C9 witness: with an empty feed and the flag set the display is the
sample set, and a session event on a non-empty feed leaves it
non-empty. -/
theorem C9_witness :
    displayFeed (fun _ => "t") 0 true [] = getSampleData (fun _ => "t") 0
  ∧ (stepSession jp0 SessionEvent.scrollTopEv stOneEntry).feed ≠ [] := by
  have h := C9_sample_substitution (fun _ => "t") 0 true [] jp0 SessionEvent.scrollTopEv stOneEntry
  exact ⟨h.1 rfl rfl, h.2.2.2 (by decide)⟩

/-- C10 witness: the string "42", valid JSON for the number 42,
normalizes to the all-defaults record; so does a concrete array. -/
theorem C10_witness :
    parseAgentResponse jp42 "NOW" (JSValue.vstr "42")
      = some { currentPrice := "N/A", priceChange := "N/A", direction := "flat",
               bulletPoints := [], timestamp := "NOW" }
  ∧ parseAgentResponse jp42 "NOW" (JSValue.varr [JSValue.vstr "a"])
      = some { currentPrice := "N/A", priceChange := "N/A", direction := "flat",
               bulletPoints := [], timestamp := "NOW" } := by
  have h := C10_non_object_defaults jp42 "NOW" "42" (JSValue.vnum 42) [JSValue.vstr "a"]
  refine ⟨h.1 (by decide) rfl ?_, h.2⟩
  intro fs hcon
  exact JSValue.noConfusion hcon
